import Mathlib

/-!
Shallow embedding of the BuildStream sandbox core:
`src/buildstream/sandbox/sandbox.py` (the abstract `Sandbox` contract and
the `_SandboxBatch` engine) and `src/buildstream/sandbox/_sandboxbwrap.py`
(the bubblewrap-style backend `SandboxBwrap`).

Python dicts are embedded as association lists, filesystem existence and
process execution as oracle functions, and Python exceptions as `Except`.
Every definition follows the corresponding Python function line by line.
-/

/-- The Python exceptions the embedded code can raise. -/
inductive PyError where
  | typeError        -- dict(None) in Sandbox._get_environment
  | assertionError   -- the flag-equality asserts in run()/batch()
  | implError        -- Sandbox._run without a backend override
  | attributeError   -- None.split(. .) when env has no PATH in _has_command
deriving Repr, DecidableEq

/-- Environments (Python `dict` of str -> str) as association lists in
insertion order; lookup returns the first binding, assignment overwrites. -/
abbrev Env := List (String × String)

/-- Python `d.get(k)` / `d[k]`: the first binding of `k`. -/
def dictGet (env : Env) (k : String) : Option String :=
  (env.find? (fun p => p.1 == k)).map (fun p => p.2)

/-- Python `d[k] = v`: overwrite the binding of `k` in place when the
key is present (a dict holds it at most once), else append. -/
def dictSet (env : Env) (k v : String) : Env :=
  match env with
  | [] => [(k, v)]
  | (k1, v1) :: rest => if k1 == k then (k, v) :: rest else (k1, v1) :: dictSet rest k v

/-- Python `a or b` on an optional string: `None` and `""` are falsy. -/
def pyOr (a : Option String) (b : String) : String :=
  match a with
  | some s => if s = "" then b else s
  | none => b

/-- Python `s.lstrip(os.sep)` on POSIX: drop every leading slash. -/
def lstripSlash (s : String) : String :=
  ⟨s.data.dropWhile (fun c => c = '/')⟩

/-- Python `s.startswith(p)`. -/
def pyStartsWith (s p : String) : Bool :=
  p.data.isPrefixOf s.data

/-- Python `s.endswith(p)`. -/
def pyEndsWith (s p : String) : Bool :=
  p.data.isSuffixOf s.data

/-- POSIX `os.path.isabs`. -/
def isAbs (s : String) : Bool :=
  pyStartsWith s "/"

/-- POSIX `os.path.join` for two components, as CPython implements it. -/
def pjoin (a b : String) : String :=
  if pyStartsWith b "/" then b
  else if a = "" || pyEndsWith a "/" then a ++ b
  else a ++ "/" ++ b

/-- The `SandboxFlags` bitmask values (sandbox.py lines 43-81). -/
def ROOT_READ_ONLY : Nat := 0x01

def NETWORK_ENABLED : Nat := 0x02

def INTERACTIVE : Nat := 0x04

def INHERIT_UID : Nat := 0x08

/-- Python truthiness of `flags & f`. -/
def hasFlag (flags f : Nat) : Bool :=
  flags.land f != 0

/-- The character class that Python `shlex.quote` keeps unquoted:
ASCII `\w` plus at-sign, percent, plus, equals, colon, comma, dot,
slash and hyphen. -/
def shlexSafeChar (c : Char) : Bool :=
  c.isAlpha || c.isDigit ||
    c ∈ ['_', '@', '%', '+', '=', ':', ',', '.', '/', '-']

/-- Python `s.replace("'", repl)` for the one-character pattern that
`shlex.quote` uses. -/
def quoteEscape (s : String) : String :=
  String.mk (s.data.flatMap (fun c => if c = '\'' then ['\'', '"', '\'', '"', '\''] else [c]))

/-- Python `shlex.quote`. -/
def shlexQuote (s : String) : String :=
  if s = "" then "''"
  else if s.data.all shlexSafeChar then s
  else "'" ++ quoteEscape s ++ "'"

/-- `' '.join(shlex.quote(cmd) for cmd in command)` (sandbox.py line 600). -/
def quotedCmdline (argv : List String) : String :=
  String.intercalate " " (argv.map shlexQuote)

/-- `Sandbox._get_work_directory` (sandbox.py line 477-478):
`cwd or self.__cwd or '/'`. -/
def getWorkDirectory (sandboxCwd cwd : Option String) : String :=
  pyOr cwd (pyOr sandboxCwd "/")

/-- `Sandbox._get_environment` (sandbox.py lines 453-465): resolve the cwd,
fall back to the sandbox environment, copy it and force `PWD`; `dict(None)`
raises `TypeError` when neither an argument nor a default is present. -/
def getEnvironment (sandboxCwd : Option String) (sandboxEnv : Option Env)
    (cwd : Option String) (env : Option Env) : Except PyError Env :=
  let cwdR := getWorkDirectory sandboxCwd cwd
  let envR := match env with
    | none => sandboxEnv
    | some e => some e
  match envR with
  | none => .error .typeError
  | some e => .ok (dictSet e "PWD" cwdR)

/-!
### The batch tree (sandbox.py lines 565-671)

`_SandboxBatchItem` and its three subclasses. `_SandboxBatchCall`'s
callback is an opaque side effect; it is identified by a number and its
invocation is recorded as an event.
-/

/-- A node of the batch tree: `_SandboxBatchCommand`, `_SandboxBatchGroup`
or `_SandboxBatchCall`. -/
inductive BatchItem where
  | command (argv : List String) (cwd : String) (env : Env) (label : Option String)
  | group (label : Option String) (children : List BatchItem)
  | call (id : Nat)
deriving Repr

/-- What batch execution observably does: run a command through the
backend primitive (with the exit code the backend returned) or invoke a
deferred callback. -/
inductive Event where
  | ran (argv : List String) (label : Option String) (code : Int)
  | called (id : Nat)
deriving Repr, DecidableEq

/-- `SandboxCommandError` (sandbox.py lines 84-94): message plus the
optional collect directory. -/
structure SandboxCommandError where
  message : String
  collect : Option String
deriving Repr, DecidableEq

/-- The failure message of `_SandboxBatch.execute_command` (sandbox.py
lines 600-603): `label = command.label or cmdline` with the shell-quoted
command line, formatted into `Command '..' failed with exitcode ..`. -/
def failMessage (label : Option String) (argv : List String) (code : Int) : String :=
  "Command '" ++ pyOr label (quotedCmdline argv) ++ "' failed with exitcode " ++ toString code

/-- Depth-first pre-order execution of a list of batch items
(`_SandboxBatchGroup.execute_children`, `_SandboxBatch.execute_command`,
`_SandboxBatch.execute_call`): the backend primitive `_run` is the oracle
`ex argv flags cwd env`; a non-zero exit code raises
`SandboxCommandError`, which stops the iteration. Returns the events
that happened and the error, if one was raised. -/
def execItems (ex : List String → Nat → String → Env → Int) (flags : Nat)
    (collect : Option String) : List BatchItem → List Event × Option SandboxCommandError
  | [] => ([], none)
  | .command argv cwd env label :: rest =>
    let code := ex argv flags cwd env
    if code ≠ 0 then
      ([.ran argv label code], some ⟨failMessage label argv code, collect⟩)
    else
      match execItems ex flags collect rest with
      | (evs, r) => (.ran argv label code :: evs, r)
  | .group _ children :: rest =>
    (match execItems ex flags collect children with
     | (evs, some e) => (evs, some e)
     | (evs, none) =>
       match execItems ex flags collect rest with
       | (evs2, r) => (evs ++ evs2, r))
  | .call id :: rest =>
    match execItems ex flags collect rest with
    | (evs, r) => (.called id :: evs, r)
termination_by l => sizeOf l
decreasing_by all_goals (simp_wf <;> omega)

/-- The full pre-order event trace of a list of batch items, as if no
failure ever stopped execution: the specification-side reference. -/
def preEvents (ex : List String → Nat → String → Env → Int) (flags : Nat) :
    List BatchItem → List Event
  | [] => []
  | .command argv cwd env label :: rest =>
    .ran argv label (ex argv flags cwd env) :: preEvents ex flags rest
  | .group _ children :: rest => preEvents ex flags children ++ preEvents ex flags rest
  | .call id :: rest => .called id :: preEvents ex flags rest
termination_by l => sizeOf l
decreasing_by all_goals (simp_wf <;> omega)

/-- Whether an event is a command exiting non-zero. -/
def eventFails : Event → Bool
  | .ran _ _ code => code ≠ 0
  | .called _ => false

/-- The command-failure error a failing event gives rise to. -/
def eventError (collect : Option String) : Event → Option SandboxCommandError
  | .ran argv label code => some ⟨failMessage label argv code, collect⟩
  | .called _ => none

/-- Specification-side cut: keep the trace up to and including the first
failing command, and report that command's error (carrying the collect
path); without a failure keep the whole trace and report nothing. -/
def specCut (collect : Option String) : List Event → List Event × Option SandboxCommandError
  | [] => ([], none)
  | e :: rest =>
    if eventFails e then ([e], eventError collect e)
    else
      match specCut collect rest with
      | (t, r) => (e :: t, r)

/-!
### The Sandbox batching state (sandbox.py lines 97-563)

The pending batch (`self.__batch` with its `current_group` pointer) is
embedded as a zipper: a non-empty stack of open groups, the head being
the current group, the last the main group. Appending an item goes to
the head group; closing a nested scope folds the head group into its
parent as a `BatchItem.group`.
-/

/-- A group that is still open: its label and the children added so far,
in order. -/
structure OpenGroup where
  label : Option String
  children : List BatchItem
deriving Repr

/-- The pending `_SandboxBatch`: the flags and collect path fixed at
open time plus the zipper of open groups. -/
structure OpenBatch where
  flags : Nat
  collect : Option String
  stack : List OpenGroup
deriving Repr

/-- The per-instance state of a `Sandbox`: the default work directory
(`self.__cwd`), the default environment (`self.__env`) and the pending
batch (`self.__batch`). -/
structure SandboxState where
  cwd : Option String
  env : Option Env
  batch : Option OpenBatch
deriving Repr

/-- `current_group.append(item)`: append to the innermost open group. -/
def OpenBatch.appendItem (b : OpenBatch) (item : BatchItem) : OpenBatch :=
  match b.stack with
  | g :: rest => { b with stack := { g with children := g.children ++ [item] } :: rest }
  | [] => b

/-- A fresh `_SandboxBatchGroup(label=label)`. -/
def newGroup (label : Option String) : OpenGroup :=
  ⟨label, []⟩

/-- `Sandbox.run` (sandbox.py lines 246-300) as the base class defines
it, over an abstract backend primitive `runImpl` standing for
`self._run`: resolve cwd and env, then either append a
`_SandboxBatchCommand` to the current group of the open batch (checking
the flag-equality assertion) and return no exit code, or execute at once
and return the backend's exit code. -/
def Sandbox.runMethod (runImpl : List String → Nat → String → Env → Except PyError Int)
    (s : SandboxState) (command : List String) (flags : Nat)
    (cwd : Option String) (env : Option Env) (label : Option String) :
    Except PyError (SandboxState × Option Int) :=
  let cwdR := getWorkDirectory s.cwd cwd
  match getEnvironment s.cwd s.env (some cwdR) env with
  | .error e => .error e
  | .ok envR =>
    match s.batch with
    | some b =>
      if flags ≠ b.flags then .error .assertionError
      else .ok ({ s with batch := some (b.appendItem (.command command cwdR envR label)) }, none)
    | none =>
      match runImpl command flags cwdR envR with
      | .error e => .error e
      | .ok code => .ok (s, some code)

/-- `Sandbox._run` as the base class leaves it (sandbox.py lines
370-372): always `ImplError`. A backend must override it. -/
def Sandbox.runAbstract : List String → Nat → String → Env → Except PyError Int :=
  fun _ _ _ _ => .error .implError

/-- Opening `Sandbox.batch` (sandbox.py lines 325-341 up to the yield):
with a batch already open, assert flag equality and push a nested group;
otherwise create a fresh `_SandboxBatch` whose main group is the new
group. -/
def Sandbox.batchOpen (s : SandboxState) (flags : Nat)
    (label collect : Option String) : Except PyError SandboxState :=
  match s.batch with
  | some b =>
    if flags ≠ b.flags then .error .assertionError
    else .ok { s with batch := some { b with stack := newGroup label :: b.stack } }
  | none => .ok { s with batch := some ⟨flags, collect, [newGroup label]⟩ }

/-- Closing a nested `Sandbox.batch` scope (the finally at sandbox.py
line 338): the inner group, with everything the scope added, takes its
place as the next child of the parent group, which becomes current
again. States without a nested scope open are returned unchanged. -/
def Sandbox.batchCloseNested (s : SandboxState) : SandboxState :=
  match s.batch with
  | some b =>
    match b.stack with
    | g :: p :: rest =>
      { s with batch := some { b with
          stack := { p with children := p.children ++ [.group g.label g.children] } :: rest } }
    | _ => s
  | none => s

/-- Fold the zipper back into the batch's main group. -/
def plugGroups : List OpenGroup → BatchItem
  | [] => .group none []
  | [g] => .group g.label g.children
  | g :: p :: rest => plugGroups ({ p with children := p.children ++ [.group g.label g.children] } :: rest)
termination_by l => l.length

/-- `_SandboxBatch.execute` (sandbox.py lines 578-579): run the main
group with the batch's flags and collect path. -/
def execBatch (ex : List String → Nat → String → Env → Int) (b : OpenBatch) :
    List Event × Option SandboxCommandError :=
  execItems ex b.flags b.collect [plugGroups b.stack]

/-- The outermost `Sandbox.batch` scope (sandbox.py lines 339-349), for
a sandbox with no batch open: install a fresh batch, run the caller's
body (which returns the mutated sandbox state and the exception it
raised, if any), then always reset `self.__batch` to `None`; only when
the body returned normally is the accumulated batch executed. The
result pairs the final sandbox state with either the body's propagated
exception or the execution outcome. -/
def Sandbox.batchTopScope (ex : List String → Nat → String → Env → Int)
    (s : SandboxState) (flags : Nat) (label collect : Option String)
    (body : SandboxState → SandboxState × Option PyError) :
    SandboxState × Except PyError (List Event × Option SandboxCommandError) :=
  let s1 := { s with batch := some ⟨flags, collect, [newGroup label]⟩ }
  let r := body s1
  let s3 := { r.1 with batch := none }
  match r.2 with
  | some e => (s3, .error e)
  | none =>
    match r.1.batch with
    | some b => (s3, .ok (execBatch ex b))
    | none => (s3, .ok ([], none))

/-!
### The bubblewrap backend (_sandboxbwrap.py)

`SandboxBwrap` overrides the public method `run` (not the abstract
`_run`): its embedding below follows `SandboxBwrap.run` line by line.
Host-filesystem existence, mount-source resolution and the launched
process's exit status are oracles.
-/

/-- `SandboxBwrap.DEVICES` (_sandboxbwrap.py lines 42-48). -/
def DEVICES : List String :=
  ["/dev/full", "/dev/null", "/dev/urandom", "/dev/random", "/dev/zero"]

/-- The cwd defaulting of `SandboxBwrap.run` (lines 59-60 and 74-75):
only a `None` argument falls back to `self._get_work_directory()`; the
second `if cwd is None` can no longer fire after that. -/
def bwrapEffectiveCwd (sandboxCwd cwd : Option String) : String :=
  match cwd with
  | none => getWorkDirectory sandboxCwd none
  | some c => c

/-- The env defaulting of `SandboxBwrap.run` (lines 62-63): only a
`None` argument falls back to `self._get_environment()` (called with no
cwd, so `PWD` is taken from the sandbox default); an explicit argument
is handed to the launcher untouched. -/
def bwrapPopenEnv (sandboxCwd : Option String) (sandboxEnv : Option Env)
    (env : Option Env) : Except PyError Env :=
  match env with
  | some e => .ok e
  | none => getEnvironment sandboxCwd sandboxEnv none none

/-- The bwrap argument vector built by `SandboxBwrap.run` (lines
78-128), accumulated in the source's order. `mountSource p` is
`mount_map.get_mount_source(p)` and `marked` the marked directories in
insertion order. -/
def bwrapCommand (bwrapPath : String) (flags : Nat) (cwd : String)
    (mountSource : String → String) (marked : List String)
    (command : List String) : List String :=
  let c := [bwrapPath]
  let c := c ++ ["--unshare-pid"]
  let c := c ++ ["--bind", mountSource "/", "/"]
  let c := if !hasFlag flags NETWORK_ENABLED then c ++ ["--unshare-net"] else c
  let c := c ++ ["--chdir", cwd]
  let c := c ++ ["--proc", "/proc", "--tmpfs", "/tmp"]
  let c := if hasFlag flags INTERACTIVE then c ++ ["--dev", "/dev"]
    else c ++ DEVICES.flatMap (fun d => ["--dev-bind", d, d])
  let c := c ++ marked.flatMap (fun mp => ["--bind", mountSource mp, mp])
  let c := if hasFlag flags ROOT_READ_ONLY then c ++ ["--remount-ro", "/"] else c
  let c := c ++ ["--unshare-user", "--uid", "0", "--gid", "0"]
  c ++ command

/-- The same vector as the specification words it: the eleven fixed
segments appended in order. -/
def bwrapCommandSpec (bwrapPath : String) (flags : Nat) (cwd : String)
    (mountSource : String → String) (marked : List String)
    (command : List String) : List String :=
  [bwrapPath] ++
  ["--unshare-pid"] ++
  ["--bind", mountSource "/", "/"] ++
  (if hasFlag flags NETWORK_ENABLED then [] else ["--unshare-net"]) ++
  ["--chdir", cwd] ++
  ["--proc", "/proc", "--tmpfs", "/tmp"] ++
  (if hasFlag flags INTERACTIVE then ["--dev", "/dev"]
   else DEVICES.flatMap (fun d => ["--dev-bind", d, d])) ++
  marked.flatMap (fun mp => ["--bind", mountSource mp, mp]) ++
  (if hasFlag flags ROOT_READ_ONLY then ["--remount-ro", "/"] else []) ++
  ["--unshare-user", "--uid", "0", "--gid", "0"] ++
  command

/-- The pre-launch record of which of `tmp`, `dev`, `proc` exist
directly under the root directory (`existing_basedirs`, lines 135-138). -/
def existingBasedirs (pathExists : String → Bool) (rootDirectory : String) :
    List (String × Bool) :=
  ["tmp", "dev", "proc"].map (fun d => (d, pathExists (pjoin rootDirectory d)))

/-- The post-run basedir loop (lines 177-192): iterate over `tmp`,
`dev`, `proc` and `continue` when `not existing_basedirs[basedir]`,
otherwise call `os.rmdir` on the directory under the root mount source.
Returns the list of paths on which `rmdir` is invoked. -/
def basedirCleanup (existing : List (String × Bool)) (rootMountSource : String) :
    List String :=
  (["tmp", "dev", "proc"].filter
    (fun d => ((existing.find? (fun p => p.1 == d)).map (fun p => p.2)).getD false)).map
    (fun d => pjoin rootMountSource d)

/-- The device cleanup loop (lines 167-173): in non-interactive mode,
each minimal device's path under the root mount source is passed to
`try_remove_device`; in interactive mode nothing is removed. -/
def deviceCleanupPaths (flags : Nat) (rootMountSource : String) : List String :=
  if hasFlag flags INTERACTIVE then []
  else DEVICES.map (fun d => pjoin rootMountSource (lstripSlash d))

/-- The observable outcome of one `SandboxBwrap.run` call. -/
structure BwrapRun where
  exitCode : Int
  bwrapArgv : List String
  popenEnv : Env
  stdinIsNull : Bool
  devicePathsRemoved : List String
  basedirsRemoved : List String
  batchAfter : Option OpenBatch
deriving Repr

/-- `SandboxBwrap.run` (lines 50-194): resolve cwd and env, build the
bwrap vector, launch (`ex argv env` is the launcher's exit status),
then clean up devices and basedirs. The pending batch of the sandbox is
never consulted or changed, and the call always produces an exit code. -/
def SandboxBwrap.run (bwrapPath rootDirectory : String)
    (mountSource : String → String) (pathExists : String → Bool)
    (ex : List String → Env → Int) (s : SandboxState) (marked : List String)
    (command : List String) (flags : Nat) (cwd : Option String)
    (env : Option Env) : Except PyError BwrapRun :=
  let cwdR := bwrapEffectiveCwd s.cwd cwd
  match bwrapPopenEnv s.cwd s.env env with
  | .error e => .error e
  | .ok envR =>
    let argv := bwrapCommand bwrapPath flags cwdR mountSource marked command
    let existing := existingBasedirs pathExists rootDirectory
    let rootSrc := mountSource "/"
    .ok { exitCode := ex argv envR
          bwrapArgv := argv
          popenEnv := envR
          stdinIsNull := !hasFlag flags INTERACTIVE
          devicePathsRemoved := deviceCleanupPaths flags rootSrc
          basedirsRemoved := basedirCleanup existing rootSrc
          batchAfter := s.batch }

/-!
### Device removal retry and the command probe
-/

/-- What one `os.unlink` call does: succeed, or raise `EBUSY`,
`ENOENT`, or some other `OSError`. -/
inductive UnlinkRes where
  | ok
  | busy
  | noent
  | otherErr
deriving Repr, DecidableEq

/-- How `SandboxBwrap.try_remove_device` ends, with the number of
`os.unlink` calls made and the number of busy retries (each preceded by
a 10ms sleep) taken. -/
inductive RemoveOutcome where
  | removed (calls : Nat) (retries : Nat)
  | alreadyRemoved (calls : Nat) (retries : Nat)
  | raisedBusy (calls : Nat) (retries : Nat)
  | raisedOther (calls : Nat) (retries : Nat)
deriving Repr, DecidableEq

/-- The loop of `SandboxBwrap.try_remove_device` (_sandboxbwrap.py lines
295-327): `res i` is what the `(i+1)`-th `os.unlink` call does, `tries`
the current retry count against `maxTries`. `EBUSY` with
`tries < max_tries` sleeps and retries; `EBUSY` past the budget
re-raises; `ENOENT` breaks as success; any other error re-raises at
once. -/
def tryRemoveDeviceLoop (res : Nat → UnlinkRes) (maxTries : Nat) (i tries : Nat) :
    RemoveOutcome :=
  match res i with
  | .ok => .removed (i + 1) tries
  | .noent => .alreadyRemoved (i + 1) tries
  | .otherErr => .raisedOther (i + 1) tries
  | .busy =>
    if tries < maxTries then tryRemoveDeviceLoop res maxTries (i + 1) (tries + 1)
    else .raisedBusy (i + 1) tries
termination_by maxTries - tries
decreasing_by omega

/-- `SandboxBwrap.try_remove_device`: `max_tries = 1000`, starting with
no tries taken. -/
def tryRemoveDevice (res : Nat → UnlinkRes) : RemoveOutcome :=
  tryRemoveDeviceLoop res 1000 0 0

/-- `Sandbox._has_command` (sandbox.py lines 525-535): an absolute
command is probed at `root + command` with the leading slashes of the
command stripped; a relative one at `root + entry + command` for each
colon-separated entry of the environment's `PATH`. `pathExists` is
`os.path.exists` on the host. An environment without `PATH` makes
`None.split(..)` raise `AttributeError`. -/
def hasCommand (pathExists : String → Bool) (root : String)
    (command : String) (env : Env) : Except PyError Bool :=
  if isAbs command then
    .ok (pathExists (pjoin root (lstripSlash command)))
  else
    match dictGet env "PATH" with
    | none => .error .attributeError
    | some pv =>
      .ok ((pv.splitOn ":").any
        (fun p => pathExists (pjoin (pjoin root (lstripSlash p)) command)))

/-!
### Helper lemmas
-/

/-- After a dict assignment, looking the key up yields the new value. -/
theorem dictGet_dictSet (env : Env) (k v : String) :
    dictGet (dictSet env k v) k = some v := by
  induction env with
  | nil => simp [dictSet, dictGet]
  | cons p rest ih =>
    obtain ⟨k1, v1⟩ := p
    by_cases h : k1 == k
    · simp [dictSet, dictGet, h]
    · simp only [dictSet, h, if_false]
      simpa [dictGet, h] using ih

/-- `specCut` distributes over append: a failure in the first part hides
the second part entirely. -/
theorem specCut_append (collect : Option String) (a b : List Event) :
    specCut collect (a ++ b) =
      match specCut collect a with
      | (t, some e) => (t, some e)
      | (t, none) =>
        match specCut collect b with
        | (t2, r) => (t ++ t2, r) := by
  induction a with
  | nil => simp [specCut]
  | cons e a ih =>
    by_cases hf : eventFails e
    · cases e with
      | ran argv label code =>
        simp only [eventFails, decide_eq_true_eq] at hf
        simp [specCut, eventFails, hf, eventError]
      | called id => simp [eventFails] at hf
    · have hcons : specCut collect (e :: a) =
          (match specCut collect a with | (t, r) => (e :: t, r)) := by
        rw [specCut]
        simp [hf]
      rw [List.cons_append, specCut]
      simp only [hf, Bool.false_eq_true, if_false]
      rw [ih, hcons]
      rcases hsa : specCut collect a with ⟨t, r⟩
      cases r with
      | some e2 => simp
      | none =>
        rcases hsb : specCut collect b with ⟨t2, r2⟩
        simp

/-!
### Claim theorems
-/

/-- Claim C3: in a batch execution over the Group, Command and Call tree
(depth-first, pre-order), the first Command whose exit code is non-zero
aborts the whole batch: execution equals the full pre-order trace cut at
the first failing command, and the raised error carries a message built
from that command's label (or its shell-quoted argv) and the batch's
collect path. -/
theorem batch_execute_first_failure_cut :
    ∀ (ex : List String → Nat → String → Env → Int) (flags : Nat)
      (collect : Option String) (items : List BatchItem),
      execItems ex flags collect items = specCut collect (preEvents ex flags items) := by
  intro ex flags collect items
  induction items using execItems.induct ex flags collect with
  | case1 => simp [execItems, preEvents, specCut]
  | case2 argv cwd env label rest code hcode =>
    simp only [execItems, preEvents, specCut, eventFails, eventError,
      decide_eq_true_eq, ne_eq]
    rw [if_pos hcode, if_pos hcode]
  | case3 argv cwd env label rest code hcode evs r hrest ih =>
    have hsr : specCut collect (preEvents ex flags rest) = (evs, r) := by
      rw [← ih]; exact hrest
    simp only [execItems, preEvents, specCut, eventFails, decide_eq_true_eq, ne_eq]
    simp only [ne_eq, Decidable.not_not] at hcode
    rw [if_neg (not_not_intro hcode), if_neg (not_not_intro hcode), hrest, hsr]
  | case4 label children rest evs e hchildren ihc =>
    have hsc : specCut collect (preEvents ex flags children) = (evs, some e) := by
      rw [← ihc]; exact hchildren
    simp only [execItems, preEvents]
    rw [specCut_append, ihc, hsc]
  | case5 label children rest evs hchildren evs2 r hrest ihc ihr =>
    have hsc : specCut collect (preEvents ex flags children) = (evs, none) := by
      rw [← ihc]; exact hchildren
    have hsr : specCut collect (preEvents ex flags rest) = (evs2, r) := by
      rw [← ihr]; exact hrest
    simp only [execItems, preEvents]
    rw [specCut_append, ihc, hsc, ihr, hsr]
  | case6 id rest evs r hrest ih =>
    have hsr : specCut collect (preEvents ex flags rest) = (evs, r) := by
      rw [← ih]; exact hrest
    simp only [execItems, preEvents, specCut, eventFails]
    rw [hrest, hsr]
    simp

/-- Claim C4: for every flag combination the backend builds the
isolation-launcher argument vector in the fixed order the specification
gives: pid namespace, root bind, conditional network unshare, chdir,
proc and tmp, devices (full host `/dev` when interactive, else exactly
the five minimal dev-binds), marked directories in insertion order, the
read-only remount exactly when `RootReadOnly` is set and after all the
binds, the uid 0 / gid 0 user namespace, and finally the command. -/
theorem bwrap_command_fixed_order :
    ∀ (bwrapPath : String) (flags : Nat) (cwd : String)
      (mountSource : String → String) (marked : List String)
      (command : List String),
      bwrapCommand bwrapPath flags cwd mountSource marked command =
        bwrapCommandSpec bwrapPath flags cwd mountSource marked command := by
  intro p f c ms m cmd
  unfold bwrapCommand bwrapCommandSpec
  cases h1 : hasFlag f NETWORK_ENABLED <;>
    cases h2 : hasFlag f INTERACTIVE <;>
      cases h3 : hasFlag f ROOT_READ_ONLY <;>
        simp [h1, h2, h3]

/-- With every unlink call reporting `EBUSY`, the loop retries until the
budget is spent and then re-raises. -/
theorem tryRemoveDeviceLoop_all_busy (res : Nat → UnlinkRes)
    (h : ∀ j, res j = .busy) :
    ∀ (d i t : Nat), t + d = 1000 →
      tryRemoveDeviceLoop res 1000 i t = .raisedBusy (i + d + 1) 1000 := by
  intro d
  induction d with
  | zero =>
    intro i t ht
    rw [tryRemoveDeviceLoop, h i]
    have ht0 : t = 1000 := by omega
    simp [ht0]
  | succ d ih =>
    intro i t ht
    rw [tryRemoveDeviceLoop, h i]
    have hlt : t < 1000 := by omega
    simp only [hlt, if_true, if_pos]
    rw [ih (i + 1) (t + 1) (by omega)]
    simp only [RemoveOutcome.raisedBusy.injEq, and_true]
    omega

/-- With a busy streak of length `N` inside the budget followed by a
successful unlink, the loop removes the device after `N` retries. -/
theorem tryRemoveDeviceLoop_clears (res : Nat → UnlinkRes) :
    ∀ (N i t : Nat), (∀ j, j < N → res (i + j) = .busy) → res (i + N) = .ok →
      t + N ≤ 1000 →
      tryRemoveDeviceLoop res 1000 i t = .removed (i + N + 1) (t + N) := by
  intro N
  induction N with
  | zero =>
    intro i t _ hok _
    rw [tryRemoveDeviceLoop]
    simp only [Nat.add_zero] at hok
    rw [hok]
    simp
  | succ N ih =>
    intro i t hbusy hok hle
    have h0 : res i = .busy := by simpa using hbusy 0 (by omega)
    rw [tryRemoveDeviceLoop, h0]
    have hlt : t < 1000 := by omega
    simp only [hlt, if_true, if_pos]
    have hb2 : ∀ j, j < N → res (i + 1 + j) = .busy := by
      intro j hj
      have := hbusy (j + 1) (by omega)
      simpa [Nat.add_assoc, Nat.add_comm 1 j] using this
    have hok2 : res (i + 1 + N) = .ok := by
      have heq : i + 1 + N = i + (N + 1) := by omega
      rw [heq]; exact hok
    rw [ih (i + 1) (t + 1) hb2 hok2 (by omega)]
    simp only [RemoveOutcome.removed.injEq]
    omega

/-- Claim C6: the device-removal retry policy of `try_remove_device`.
With every unlink call busy, the busy error is re-raised after exactly
1000 retries (the 1001st unlink call); a busy streak that clears after
N < 1000 calls ends in successful removal; `ENOENT` on the first call
is success; any other error on the first call propagates at once. -/
theorem try_remove_device_retry_policy :
    ∀ res : Nat → UnlinkRes,
      ((∀ j, res j = .busy) → tryRemoveDevice res = .raisedBusy 1001 1000) ∧
      (∀ N, N < 1000 → (∀ j, j < N → res j = .busy) → res N = .ok →
        tryRemoveDevice res = .removed (N + 1) N) ∧
      (res 0 = .noent → tryRemoveDevice res = .alreadyRemoved 1 0) ∧
      (res 0 = .otherErr → tryRemoveDevice res = .raisedOther 1 0) := by
  intro res
  refine ⟨fun h => ?_, fun N hN hbusy hok => ?_, fun h => ?_, fun h => ?_⟩
  · have := tryRemoveDeviceLoop_all_busy res h 1000 0 0 (by omega)
    simpa [tryRemoveDevice] using this
  · have hb : ∀ j, j < N → res (0 + j) = .busy := by
      intro j hj; simpa using hbusy j hj
    have hok0 : res (0 + N) = .ok := by simpa using hok
    have := tryRemoveDeviceLoop_clears res N 0 0 hb hok0 (by omega)
    simpa [tryRemoveDevice] using this
  · rw [tryRemoveDevice, tryRemoveDeviceLoop, h]
  · rw [tryRemoveDevice, tryRemoveDeviceLoop, h]

/-- Claim C8: the command-existence probe. Under an environment whose
`PATH` is `pv`, `_has_command` answers true for an absolute command
exactly when the host path `root + command` exists, and for a relative
command exactly when some colon-separated entry `p` of `pv` makes
`root + p + command` exist. -/
theorem has_command_path_probe :
    ∀ (pathExists : String → Bool) (root command : String) (env : Env) (pv : String),
      dictGet env "PATH" = some pv →
      (hasCommand pathExists root command env = .ok true ↔
        (if isAbs command then
          pathExists (pjoin root (lstripSlash command)) = true
        else
          ∃ p ∈ pv.splitOn ":",
            pathExists (pjoin (pjoin root (lstripSlash p)) command) = true)) := by
  intro pathExists root command env pv hpath
  unfold hasCommand
  by_cases habs : isAbs command
  · simp [habs]
  · simp [habs, hpath, List.any_eq_true]

/-- Witness for C8 at a concrete input: with only `/r/bin/sh` existing
on the host, the relative probe for `sh` with `PATH=/bin:/usr/bin`
under root `/r` answers true exactly as the specification reads. -/
theorem has_command_path_probe_witness :
    hasCommand (fun s => s == "/r/bin/sh") "/r" "sh" [("PATH", "/bin:/usr/bin")] = .ok true ↔
      (if isAbs "sh" then
        (fun s => s == "/r/bin/sh") (pjoin "/r" (lstripSlash "sh")) = true
      else
        ∃ p ∈ ("/bin:/usr/bin" : String).splitOn ":",
          (fun s => s == "/r/bin/sh") (pjoin (pjoin "/r" (lstripSlash p)) "sh") = true) :=
  has_command_path_probe (fun s => s == "/r/bin/sh") "/r" "sh"
    [("PATH", "/bin:/usr/bin")] "/bin:/usr/bin" rfl

/-- Claim C10: `run()` requires an environment. With no `env` argument
and no environment set on the sandbox, `run` raises `TypeError` (so
nothing is executed and nothing is deferred); with an environment set
or passed, environment resolution always succeeds and the resolved
mapping binds `PWD` to the effective working directory. -/
theorem run_environment_required :
    ∀ (runImpl : List String → Nat → String → Env → Except PyError Int)
      (s : SandboxState) (command : List String) (flags : Nat)
      (cwd : Option String) (label : Option String),
      (s.env = none →
        Sandbox.runMethod runImpl s command flags cwd none label = .error .typeError) ∧
      (∀ (env : Option Env) (e0 : Env), (env = some e0 ∨ s.env = some e0) →
        ∃ ev, getEnvironment s.cwd s.env cwd env = .ok ev ∧
          dictGet ev "PWD" = some (getWorkDirectory s.cwd cwd)) := by
  intro runImpl s command flags cwd label
  constructor
  · intro hnone
    unfold Sandbox.runMethod getEnvironment
    simp [hnone]
  · intro env e0 h
    rcases h with h | h
    · subst h
      exact ⟨dictSet e0 "PWD" (getWorkDirectory s.cwd cwd),
        by simp [getEnvironment], dictGet_dictSet _ _ _⟩
    · cases env with
      | none =>
        exact ⟨dictSet e0 "PWD" (getWorkDirectory s.cwd cwd),
          by simp [getEnvironment, h], dictGet_dictSet _ _ _⟩
      | some e1 =>
        exact ⟨dictSet e1 "PWD" (getWorkDirectory s.cwd cwd),
          by simp [getEnvironment], dictGet_dictSet _ _ _⟩

/-- Claim C5: batch nesting and the flag invariant. With a batch open
(current group `g`, enclosing stack `rest`): opening a nested batch
with equal flags pushes a fresh group under the same single batch
(flags and collect unchanged), and closing that nested scope appends
the group, with whatever the scope added, as the next child of `g` —
the scopes compose into one execution tree; opening with different
flags raises the assertion before anything executes; and `run()` with
flags different from the batch's raises the assertion instead of
adding a command. -/
theorem batch_nesting_flag_invariant :
    ∀ (s : SandboxState) (fl : Nat) (col : Option String) (g : OpenGroup)
      (rest : List OpenGroup) (flags : Nat) (label collect : Option String),
      s.batch = some ⟨fl, col, g :: rest⟩ →
      ((flags = fl →
          Sandbox.batchOpen s flags label collect =
            .ok { s with batch := some ⟨fl, col, newGroup label :: g :: rest⟩ } ∧
          ∀ items : List BatchItem,
            Sandbox.batchCloseNested
                { s with batch := some ⟨fl, col, ⟨label, items⟩ :: g :: rest⟩ } =
              { s with batch := some ⟨fl, col,
                  ⟨g.label, g.children ++ [.group label items]⟩ :: rest⟩ }) ∧
       (flags ≠ fl → Sandbox.batchOpen s flags label collect = .error .assertionError) ∧
       (flags ≠ fl → ∀ (command : List String) (cwd : Option String) (env : Env)
          (lbl : Option String) (runImpl : List String → Nat → String → Env → Except PyError Int),
          Sandbox.runMethod runImpl s command flags cwd (some env) lbl =
            .error .assertionError)) := by
  intro s fl col g rest flags label collect hbatch
  refine ⟨fun heq => ⟨?_, fun items => ?_⟩, fun hne => ?_, fun hne command cwd env lbl runImpl => ?_⟩
  · subst heq
    simp [Sandbox.batchOpen, hbatch]
  · simp [Sandbox.batchCloseNested]
  · simp [Sandbox.batchOpen, hbatch, hne]
  · simp [Sandbox.runMethod, getEnvironment, hbatch, hne]

/-- Witness for C5 at a concrete input: a sandbox with a batch open
under flags 1 and an empty main group. -/
theorem batch_nesting_flag_invariant_witness :
    ((2 = 1 →
        Sandbox.batchOpen ⟨none, none, some ⟨1, none, [⟨none, []⟩]⟩⟩ 2 (some "n") none =
          .ok { cwd := none, env := none,
                batch := some ⟨1, none, newGroup (some "n") :: ⟨none, []⟩ :: []⟩ } ∧
        ∀ items : List BatchItem,
          Sandbox.batchCloseNested
              ⟨none, none, some ⟨1, none, ⟨some "n", items⟩ :: ⟨none, []⟩ :: []⟩⟩ =
            ⟨none, none, some ⟨1, none, ⟨none, [] ++ [.group (some "n") items]⟩ :: []⟩⟩) ∧
     (2 ≠ 1 →
        Sandbox.batchOpen ⟨none, none, some ⟨1, none, [⟨none, []⟩]⟩⟩ 2 (some "n") none =
          .error .assertionError) ∧
     (2 ≠ 1 → ∀ (command : List String) (cwd : Option String) (env : Env)
        (lbl : Option String) (runImpl : List String → Nat → String → Env → Except PyError Int),
        Sandbox.runMethod runImpl ⟨none, none, some ⟨1, none, [⟨none, []⟩]⟩⟩ command 2 cwd
            (some env) lbl = .error .assertionError)) :=
  batch_nesting_flag_invariant ⟨none, none, some ⟨1, none, [⟨none, []⟩]⟩⟩ 1 none
    ⟨none, []⟩ [] 2 (some "n") none rfl

/-- Claim C9: if the body of the outermost `batch()` scope raises, the
accumulated batch tree is discarded (no execution result is produced),
the sandbox's pending batch is reset to `None` in the final state, and
the body's exception propagates; a later `run()` on that state can
never defer a command. -/
theorem batch_exception_discards_tree :
    ∀ (ex : List String → Nat → String → Env → Int) (s : SandboxState)
      (flags : Nat) (label collect : Option String)
      (body : SandboxState → SandboxState × Option PyError)
      (s2 : SandboxState) (e : PyError),
      s.batch = none →
      body { s with batch := some ⟨flags, collect, [newGroup label]⟩ } = (s2, some e) →
      (Sandbox.batchTopScope ex s flags label collect body =
        ({ s2 with batch := none }, .error e) ∧
       ∀ (runImpl : List String → Nat → String → Env → Except PyError Int)
         (command : List String) (fl : Nat) (cwd : Option String)
         (env : Option Env) (lbl : Option String) (s4 : SandboxState),
         Sandbox.runMethod runImpl { s2 with batch := none } command fl cwd env lbl ≠
           .ok (s4, none)) := by
  intro ex s flags label collect body s2 e _ hbody
  constructor
  · simp [Sandbox.batchTopScope, hbody]
  · intro runImpl command fl cwd env lbl s4
    unfold Sandbox.runMethod
    cases hge : getEnvironment s2.cwd s2.env
        (some (getWorkDirectory s2.cwd cwd)) env with
    | error e2 => simp [hge]
    | ok envR =>
      cases hri : runImpl command fl (getWorkDirectory s2.cwd cwd) envR with
      | error e3 => simp [hge, hri]
      | ok code => simp [hge, hri]

/-- Witness for C9 at a concrete input: an idle sandbox whose batch
body raises `TypeError` after adding nothing. -/
theorem batch_exception_discards_tree_witness :
    (Sandbox.batchTopScope (fun _ _ _ _ => 0) ⟨none, none, none⟩ 1 none none
        (fun st => (st, some .typeError)) =
      ({ (⟨none, none, some ⟨1, none, [newGroup none]⟩⟩ : SandboxState) with batch := none },
        .error .typeError) ∧
     ∀ (runImpl : List String → Nat → String → Env → Except PyError Int)
       (command : List String) (fl : Nat) (cwd : Option String)
       (env : Option Env) (lbl : Option String) (s4 : SandboxState),
       Sandbox.runMethod runImpl
           { (⟨none, none, some ⟨1, none, [newGroup none]⟩⟩ : SandboxState) with batch := none }
           command fl cwd env lbl ≠ .ok (s4, none)) :=
  batch_exception_discards_tree (fun _ _ _ _ => 0) ⟨none, none, none⟩ 1 none none
    (fun st => (st, some .typeError)) ⟨none, none, some ⟨1, none, [newGroup none]⟩⟩
    .typeError rfl rfl

/-- Claim C1 (code bug): the basedir cleanup of `SandboxBwrap.run` is
inverted. When none of `tmp`, `dev`, `proc` pre-existed under the root,
the loop removes nothing (the launcher's debris is left behind); when
all three pre-existed, the loop removes all three. The specification
asks for exactly the opposite, and the source's own comment ("Skip
removal of directories which already existed before launching bwrap")
contradicts the `if not existing_basedirs[basedir]: continue` it sits
above. -/
theorem bwrap_basedir_cleanup_inverted :
    basedirCleanup (existingBasedirs (fun _ => false) "/rootdir") "/rootsrc" = [] ∧
    basedirCleanup (existingBasedirs (fun _ => true) "/rootdir") "/rootsrc" =
      ["/rootsrc/tmp", "/rootsrc/dev", "/rootsrc/proc"] ∧
    (SandboxBwrap.run "/usr/bin/bwrap" "/rootdir" (fun _ => "/rootsrc")
        (fun _ => false) (fun _ _ => 0) ⟨none, none, none⟩ [] ["sh"] 0 none
        (some [])).toOption.map (fun r => r.basedirsRemoved) = some [] := by
  exact ⟨rfl, rfl, rfl⟩

/-- Claim C2 (code bug): on the namespace backend, `run` does not defer
into an open batch. `SandboxBwrap.run` overrides the public
`Sandbox.run` (instead of implementing the abstract `_run`), so with a
batch open it still executes at once, returns the launcher's exit code
(here 7) and leaves the pending batch untouched, with no command
appended; and since `_run` keeps its base-class definition, the batch
engine's own call to it can only raise `ImplError`. The base-class
`Sandbox.run`, by contrast, defers exactly as the claim states. -/
theorem bwrap_run_ignores_open_batch :
    ((SandboxBwrap.run "/usr/bin/bwrap" "/rootdir" (fun _ => "/rootsrc")
        (fun _ => false) (fun _ _ => 7)
        ⟨none, none, some ⟨0, none, [⟨none, []⟩]⟩⟩ [] ["true"] 0 none
        (some [])).toOption.map (fun r => (r.exitCode, r.batchAfter)) =
      some (7, some ⟨0, none, [⟨none, []⟩]⟩)) ∧
    Sandbox.runAbstract ["true"] 0 "/" [] = .error .implError ∧
    Sandbox.runMethod (fun _ _ _ _ => .ok 7)
        ⟨none, none, some ⟨0, none, [⟨none, []⟩]⟩⟩ ["true"] 0 none (some []) none =
      .ok (⟨none, none,
            some ⟨0, none, [⟨none, [.command ["true"] "/" [("PWD", "/")] none]⟩]⟩⟩, none) :=
  ⟨rfl, rfl, rfl⟩

/-- Claim C7 (code bug): `SandboxBwrap.run` hands a caller-supplied
environment to the launched process untouched, so `PWD` is not forced
to the effective working directory: with `cwd="/build"` and an
environment carrying `PWD=/stale`, the process environment still maps
`PWD` to `/stale`. -/
theorem bwrap_run_pwd_not_forced :
    ((SandboxBwrap.run "/usr/bin/bwrap" "/rootdir" (fun _ => "/rootsrc")
        (fun _ => false) (fun _ _ => 0)
        ⟨none, some [("PWD", "/stale")], none⟩ [] ["pwd"] 0 (some "/build")
        (some [("PWD", "/stale")])).toOption.map
          (fun r => dictGet r.popenEnv "PWD") = some (some "/stale")) ∧
    bwrapEffectiveCwd none (some "/build") = "/build" ∧
    some ("/stale" : String) ≠ some ("/build" : String) := by
  refine ⟨rfl, rfl, ?_⟩
  simp
